import Mathlib

/-!
Shallow embedding of the Write-Tools tray application (src/main.py).

The program is sequential glue around two remote services: it reads
clipboard text, builds a prompt for one of nine text operations, performs
one chat-completion call, checks the languages of input and output, and
writes the result back to the clipboard; a sibling dialog generates images.
External effects (the clipboard, the remote calls, the language classifier
and the dialog widgets) are modelled as explicit inputs and outputs of pure
functions, each translated from the corresponding Python function.
-/

/-- Result of the third-party language classifier `langdetect.detect`:
either an ISO code, or a raised exception (the bare `except` branch of
`detect_language`). -/
inductive DetectResult where
  | ok (code : String)
  | failure
deriving DecidableEq

/-- Embeds `detect_language` (main.py lines 562-572): maps the classifier
outcome to a human-readable label. -/
def detect_language : DetectResult → String
  | DetectResult.ok code =>
      if code = "pt" then "Portuguese (European)"
      else if code = "en" then "English"
      else "Other (" ++ code ++ ")"
  | DetectResult.failure => "Unknown"

/-- The nine text operations of the tray menu. -/
inductive Operation where
  | Proofread
  | Rewrite
  | Friendly
  | Professional
  | Concise
  | Summary
  | KeyPoints
  | Table
  | List
deriving DecidableEq

/-- Embeds `base_instruction` of `call_openai_api` (main.py lines 372-379),
the fixed language-preservation preamble, with the exact whitespace of the
Python triple-quoted string. -/
def base_instruction : String :=
  "\n        Process the following text according to the given instructions. \n        IMPORTANT: \n        1. Always respond in the EXACT SAME LANGUAGE as the input text.\n        2. If the input is in Portuguese, use European Portuguese (from Portugal), not Brazilian Portuguese.\n        3. DO NOT translate the text to any other language.\n        4. Maintain the original language, dialect, and style of the input text in your response.\n        "

/-- The operation-specific instruction text of the `prompts` dictionary
(main.py lines 381-402): the part of each entry that follows the
interpolated `base_instruction`, including its leading space. -/
def opInstruction : Operation → String
  | Operation.Proofread => " Proofread the text, focusing on grammar, spelling, punctuation, style, and clarity. Return a corrected version."
  | Operation.Rewrite => " Rewrite the text, focusing on clarity, style, and coherence. Maintain the original meaning and tone."
  | Operation.Friendly => " Rewrite the text to make it friendlier. Focus on a warm, approachable, and conversational tone."
  | Operation.Professional => " Rewrite the text to make it more professional. Use formal, respectful language and improve clarity and structure."
  | Operation.Concise => " Rewrite the text to make it more concise. Focus on clarity and brevity while maintaining the original meaning."
  | Operation.Summary => " Summarize the text, focusing on key points and main ideas. Ensure the summary is clear and concise."
  | Operation.KeyPoints => " Extract the key points from the text. Present them in a bulleted or numbered list."
  | Operation.Table => " Create a table from the text. Organize the information in a clear, tabular format.\n            Use markdown-style table formatting. Follow these guidelines:\n            1. Use \x27|\x27 to separate columns.\n            2. Use a row of \x27---\x27 or \x27:---:\x27 (for center alignment) or \x27---:\x27 (for right alignment) to separate the header from the body.\n            3. Ensure proper alignment of the content for readability.\n            4. If the table is wide, consider using only essential columns to fit the data.\n            Example format:\n            | Header1 | Header2 | Header3 |\n            |---------|:-------:|--------:|\n            | Left    | Center  |   Right |\n            | Data    | Data    |    Data |\n            "
  | Operation.List => " Transform the text into a list. Break down the information into clear, concise points. Present the list in either bulleted or numbered form."

/-- An entry of the `prompts` dictionary: the f-string interpolation
`base_instruction` followed by the operation-specific instruction. -/
def prompts (op : Operation) : String :=
  base_instruction ++ opInstruction op

/-- Embeds the `full_prompt` f-string of `call_openai_api` (main.py line
404). The classifier outcome on the input text is passed explicitly. -/
def full_prompt (r : DetectResult) (op : Operation) (input_text : String) : String :=
  prompts op ++ "\n\nInput text language: " ++ detect_language r ++ "\n\n" ++ input_text

/-- Substring containment: `t` occurs verbatim inside `s`. -/
def strContains (s t : String) : Prop :=
  ∃ a b : String, s = a ++ t ++ b

/-- One message of the chat-completion response. -/
structure ApiMessage where
  content : String
deriving DecidableEq

/-- One choice of the chat-completion response. -/
structure ApiChoice where
  message : ApiMessage
deriving DecidableEq

/-- The chat-completion response body: its ordered sequence of choices. -/
structure ChatResponse where
  choices : List ApiChoice
deriving DecidableEq

/-- Python `str.strip`: removes leading and trailing whitespace. -/
def pyStrip (s : String) : String :=
  String.mk (((s.data.dropWhile Char.isWhitespace).reverse.dropWhile Char.isWhitespace).reverse)

/-- Embeds the result extraction of `call_openai_api` (main.py line 417):
`response.choices[0].message.content.strip()`. An empty choice sequence
raises in Python (caught by the caller); here it is `none`. -/
def extract_result (resp : ChatResponse) : Option String :=
  match resp.choices with
  | [] => none
  | c :: _ => some (pyStrip c.message.content)

/-- Python truthiness of `self.api_key`, which is `None` when no config
file exists and may be an empty string: falsy iff absent or empty. -/
def truthyKey : Option String → Bool
  | none => false
  | some s => !(s == "")

/-- Observable outcome of one `process_option` run (main.py lines 342-367):
the clipboard after the run, the error dialogs shown via
`show_error_message` in order (title, message), the result dialog shown via
`show_result_dialog` if any, and how many chat-completion requests were
issued. -/
structure ProcResult where
  clipboard : String
  dialogs : List (String × String)
  resultShown : Option (Operation × String × String)
  networkCalls : Nat
deriving DecidableEq

/-- Embeds `process_option` (main.py lines 342-367). `detect` models the
third-party classifier, applied to the input and output texts; `api` models
the outcome the single chat-completion call would have (`Except.error e`
when `call_openai_api` raises with message `e`); `clip` is the clipboard
before the run. -/
def process_option (detect : String → DetectResult) (api : Except String String)
    (api_key : Option String) (clip : String)
    (op : Operation) (input_text : String) : ProcResult :=
  if input_text = "" then
    { clipboard := clip
      dialogs := [("No Text Selected", "Please select some text before choosing an option.")]
      resultShown := none
      networkCalls := 0 }
  else if truthyKey api_key = false then
    { clipboard := clip
      dialogs := [("API Key Missing", "Please provide an OpenAI API key to use this feature.")]
      resultShown := none
      networkCalls := 0 }
  else
    match api with
    | Except.error e =>
        { clipboard := clip
          dialogs := [("Error", "An error occurred while processing the text: " ++ e)]
          resultShown := none
          networkCalls := 1 }
    | Except.ok processed =>
        let input_lang := detect_language (detect input_text)
        let output_lang := detect_language (detect processed)
        { clipboard := processed
          dialogs :=
            if input_lang = output_lang then []
            else [("Language Mismatch",
              "The API response is in a different language. Input: " ++ input_lang
                ++ ", Output: " ++ output_lang)]
          resultShown := some (op, input_text, processed)
          networkCalls := 1 }

/-- Content of `config.json`: the value of its api_key field, `none` when
the field is missing (`config.get` returns `None`). -/
structure Config where
  api_key : Option String
deriving DecidableEq

/-- Embeds `save_api_key` (main.py lines 336-340): the record written to
`config.json`. -/
def save_api_key (key : String) : Config :=
  { api_key := some key }

/-- The stored key as read by the `try` block of `load_api_key` (main.py
lines 322-327): `none` when the file is absent (FileNotFoundError). -/
def read_stored (file : Option Config) : Option String :=
  match file with
  | none => none
  | some c => c.api_key

/-- Observable outcome of `load_api_key`: the in-memory key, the config
file afterwards, and whether the interactive prompt was shown. -/
structure LoadResult where
  api_key : Option String
  file : Option Config
  prompted : Bool
deriving DecidableEq

/-- Embeds `load_api_key` (main.py lines 320-334). `dialog` models the
`QInputDialog.getText` outcome as Python returns it: the entered text and
the ok flag. -/
def load_api_key (file : Option Config) (dialog : String × Bool) : LoadResult :=
  let stored := read_stored file
  if truthyKey stored then
    { api_key := stored, file := file, prompted := false }
  else
    if dialog.2 && !(dialog.1 == "") then
      { api_key := some dialog.1, file := some (save_api_key dialog.1), prompted := true }
    else
      { api_key := some dialog.1, file := file, prompted := true }

/-- A Python value as returned by `replicate.run`: a string, an integer, a
list, or some other object carried with its `str` form. -/
inductive PyVal where
  | str (s : String)
  | int (n : Int)
  | obj (form : String)
  | list (xs : List PyVal)

mutual

/-- Python `repr` of a value, used by `str` on lists. String escaping
inside `repr` is not modelled. -/
def pyRepr : PyVal → String
  | PyVal.str s => "\x27" ++ s ++ "\x27"
  | PyVal.int n => toString n
  | PyVal.obj form => form
  | PyVal.list xs => "[" ++ pyReprList xs ++ "]"

/-- Comma-separated reprs of the elements of a Python list. -/
def pyReprList : List PyVal → String
  | [] => ""
  | [v] => pyRepr v
  | v :: vs => pyRepr v ++ ", " ++ pyReprList vs

end

/-- Python `str`: the string itself for a string, `repr`-like otherwise. -/
def pyStr : PyVal → String
  | PyVal.str s => s
  | v => pyRepr v

/-- Whether `isinstance(v, list)` holds. -/
def isPyList : PyVal → Bool
  | PyVal.list _ => true
  | _ => false

/-- Embeds the normalization step of `ImageGenerationThread.run` (main.py
lines 59-63): a list becomes the list of its elements in `str` form, any
other single value becomes a one-element list of its `str` form. -/
def normalize_output (v : PyVal) : List String :=
  match v with
  | PyVal.list xs => xs.map pyStr
  | v => [pyStr v]

/-- Widget state of `ImageGeneratorDialog` that the generation callbacks
touch: the stored last prompt, the prompt text field, the read-only output
URL field, the status label, the generate-button enablement, and the text
shown in the image preview label. -/
structure DialogState where
  last_prompt : String
  prompt_input : String
  output_url : String
  status_label : String
  generate_enabled : Bool
  image_text : String
deriving DecidableEq

/-- Embeds `on_generation_finished` (main.py lines 166-182). The emitting
thread always delivers a list of strings, so `output : List String`; the
asynchronous preview download it may start is outside this state. -/
def on_generation_finished (st : DialogState) (output : List String) : DialogState :=
  match output with
  | [] =>
      { st with
        status_label := "No images were generated."
        last_prompt := st.prompt_input
        generate_enabled := true }
  | url :: rest =>
      { st with
        output_url := url
        status_label := "Generated " ++ toString (url :: rest).length
          ++ " images. Displaying the first one."
        last_prompt := st.prompt_input
        generate_enabled := true }

/-- Embeds `on_generation_error` (main.py lines 198-202). -/
def on_generation_error (st : DialogState) (msg : String) : DialogState :=
  { st with
    status_label := "Error generating image: " ++ msg
    generate_enabled := true
    image_text := "Error generating image" }

/-- Claim C1: for every operation and input text, the prompt sent to the
remote call is the operation prompt followed by the detected-language
marker and the input text, and it contains the language-preservation
preamble verbatim, the operation-specific instruction verbatim, and the
detected input-language label. -/
theorem c1_prompt_builder (r : DetectResult) (op : Operation) (text : String) :
    full_prompt r op text
      = prompts op ++ "\n\nInput text language: " ++ detect_language r ++ "\n\n" ++ text
    ∧ strContains (full_prompt r op text) base_instruction
    ∧ strContains (full_prompt r op text) (opInstruction op)
    ∧ strContains (full_prompt r op text) (detect_language r) := by
  refine ⟨rfl,
    ⟨"", opInstruction op ++ "\n\nInput text language: " ++ detect_language r ++ "\n\n" ++ text, ?_⟩,
    ⟨base_instruction, "\n\nInput text language: " ++ detect_language r ++ "\n\n" ++ text, ?_⟩,
    ⟨prompts op ++ "\n\nInput text language: ", "\n\n" ++ text, ?_⟩⟩ <;>
    simp [full_prompt, prompts, String.append_assoc, String.empty_append]

/-- Claim C2, counterexample: the code labels an unrecognized code with
a space before the parenthesis, so the detected code fr is labelled
Other (fr) and not Other(fr) as the claim states. -/
theorem c2_counterexample :
    detect_language (DetectResult.ok "fr") = "Other (fr)"
    ∧ detect_language (DetectResult.ok "fr") ≠ "Other(fr)" := by
  decide

/-- Claim C2, amended: language detection maps pt to Portuguese
(European), en to English, any other code c to Other (c) with a space
before the parenthesis, and detection failure to Unknown. -/
theorem c2_language_labels :
    detect_language (DetectResult.ok "pt") = "Portuguese (European)"
    ∧ detect_language (DetectResult.ok "en") = "English"
    ∧ (∀ c : String, c ≠ "pt" → c ≠ "en" →
        detect_language (DetectResult.ok c) = "Other (" ++ c ++ ")")
    ∧ detect_language DetectResult.failure = "Unknown" := by
  refine ⟨rfl, rfl, ?_, rfl⟩
  intro c h1 h2
  simp [detect_language, h1, h2]

/-- Claim C2, witness: the amended mapping evaluated at the code de. -/
theorem c2_witness :
    detect_language (DetectResult.ok "de") = "Other (de)" := by
  have h := c2_language_labels.2.2.1 "de" (by decide) (by decide)
  exact h.trans (by decide)

/-- Claim C3: for every response with at least one choice, the adapter
returns exactly the first choice text with leading and trailing whitespace
removed. -/
theorem c3_extract_result (resp : ChatResponse) (c : ApiChoice) (cs : List ApiChoice)
    (h : resp.choices = c :: cs) :
    extract_result resp = some (pyStrip c.message.content) := by
  simp [extract_result, h]

/-- Claim C3, witness: a mocked response whose first choice text is
padded with spaces yields the trimmed text. -/
theorem c3_witness :
    extract_result { choices := [{ message := { content := "  foo bar  " } }] }
      = some "foo bar" := by
  have h := c3_extract_result { choices := [{ message := { content := "  foo bar  " } }] }
    { message := { content := "  foo bar  " } } [] rfl
  exact h.trans (by decide)

/-- Claim C4, counterexample: with no API key configured but also no text
selected, the run shows only the missing-text dialog, so no
missing-credential message is yielded at this input. -/
theorem c4_counterexample :
    (process_option (fun _ => DetectResult.failure) (Except.ok "y") none "clip"
        Operation.Proofread "").dialogs
      = [("No Text Selected", "Please select some text before choosing an option.")]
    ∧ ∀ m ∈ (process_option (fun _ => DetectResult.failure) (Except.ok "y") none "clip"
        Operation.Proofread "").dialogs, m.1 ≠ "API Key Missing" := by
  decide

/-- Claim C4, amended: for every transformation invocation with non-empty
input text made while no API key is configured, the missing-credential
dialog is the only message shown, no network call is attempted, and the
clipboard is unchanged. -/
theorem c4_missing_credential (detect : String → DetectResult) (api : Except String String)
    (key : Option String) (clip : String) (op : Operation) (text : String)
    (htext : text ≠ "") (hkey : truthyKey key = false) :
    process_option detect api key clip op text
      = { clipboard := clip
          dialogs := [("API Key Missing", "Please provide an OpenAI API key to use this feature.")]
          resultShown := none
          networkCalls := 0 } := by
  simp [process_option, htext, hkey]

/-- Claim C4, witness: the amended statement at a concrete invocation
with text Hello and no configured key. -/
theorem c4_witness :
    process_option (fun _ => DetectResult.failure) (Except.ok "y") none "clip"
        Operation.Summary "Hello"
      = { clipboard := "clip"
          dialogs := [("API Key Missing", "Please provide an OpenAI API key to use this feature.")]
          resultShown := none
          networkCalls := 0 } := by
  exact c4_missing_credential _ _ _ _ _ _ (by decide) (by decide)

/-- Claim C5: when the remote call succeeds, the result is always copied
to the clipboard and shown in the result dialog; the language-mismatch
dialog appears exactly when the two detected labels differ, and it never
suppresses the result. -/
theorem c5_language_mismatch (detect : String → DetectResult) (key : Option String)
    (clip : String) (op : Operation) (text processed : String)
    (htext : text ≠ "") (hkey : truthyKey key = true) :
    (process_option detect (Except.ok processed) key clip op text).clipboard = processed
    ∧ (process_option detect (Except.ok processed) key clip op text).resultShown
        = some (op, text, processed)
    ∧ (detect_language (detect text) = detect_language (detect processed) →
        (process_option detect (Except.ok processed) key clip op text).dialogs = [])
    ∧ (detect_language (detect text) ≠ detect_language (detect processed) →
        (process_option detect (Except.ok processed) key clip op text).dialogs
          = [("Language Mismatch",
              "The API response is in a different language. Input: "
                ++ detect_language (detect text) ++ ", Output: "
                ++ detect_language (detect processed))]) := by
  refine ⟨?_, ?_, ?_, ?_⟩
  · simp [process_option, htext, hkey]
  · simp [process_option, htext, hkey]
  · intro heq
    simp [process_option, htext, hkey, heq]
  · intro hne
    simp [process_option, htext, hkey, hne]

/-- Claim C5, witness: an English input with a Portuguese output is still
copied to the clipboard while the mismatch dialog is shown. -/
theorem c5_witness :
    (process_option (fun s => if s = "Hello" then DetectResult.ok "en" else DetectResult.ok "pt")
        (Except.ok "Olá") (some "k") "clip" Operation.Summary "Hello").clipboard = "Olá"
    ∧ (process_option (fun s => if s = "Hello" then DetectResult.ok "en" else DetectResult.ok "pt")
        (Except.ok "Olá") (some "k") "clip" Operation.Summary "Hello").dialogs
      = [("Language Mismatch",
          "The API response is in a different language. Input: English, Output: Portuguese (European)")] := by
  have h := c5_language_mismatch
    (fun s => if s = "Hello" then DetectResult.ok "en" else DetectResult.ok "pt")
    (some "k") "clip" Operation.Summary "Hello" "Olá" (by decide) (by decide)
  exact ⟨h.1, (h.2.2.2 (by decide)).trans (by decide)⟩

/-- Claim C6: when the remote call raises, the run shows exactly one
error dialog, makes exactly one call attempt, shows no result, and leaves
the clipboard unchanged. -/
theorem c6_transport_error (detect : String → DetectResult) (e : String)
    (key : Option String) (clip : String) (op : Operation) (text : String)
    (htext : text ≠ "") (hkey : truthyKey key = true) :
    process_option detect (Except.error e) key clip op text
      = { clipboard := clip
          dialogs := [("Error", "An error occurred while processing the text: " ++ e)]
          resultShown := none
          networkCalls := 1 } := by
  simp [process_option, htext, hkey]

/-- Claim C6, witness: a concrete failing invocation shows one error
dialog and leaves the clipboard untouched. -/
theorem c6_witness :
    process_option (fun _ => DetectResult.failure) (Except.error "timeout") (some "k") "old"
        Operation.Rewrite "Hello"
      = { clipboard := "old"
          dialogs := [("Error", "An error occurred while processing the text: timeout")]
          resultShown := none
          networkCalls := 1 } := by
  exact c6_transport_error _ _ _ _ _ _ (by decide) (by decide)

/-- Claim C7: the image-generation output is normalized into a list of
string forms: a list becomes the list of the string forms of its elements,
and any non-list value becomes a one-element list of its string form. -/
theorem c7_normalize (v : PyVal) :
    (∀ xs : List PyVal, v = PyVal.list xs → normalize_output v = xs.map pyStr)
    ∧ (isPyList v = false → normalize_output v = [pyStr v]) := by
  constructor
  · intro xs h
    subst h
    rfl
  · intro h
    cases v with
    | str s => rfl
    | int n => rfl
    | obj form => rfl
    | list xs => simp [isPyList] at h

/-- Claim C7, witness: a list output and a single non-list output
evaluated concretely. -/
theorem c7_witness :
    normalize_output (PyVal.list [PyVal.str "http://a", PyVal.int 2]) = ["http://a", "2"]
    ∧ normalize_output (PyVal.obj "http://img") = ["http://img"] := by
  constructor
  · have h := (c7_normalize (PyVal.list [PyVal.str "http://a", PyVal.int 2])).1
      [PyVal.str "http://a", PyVal.int 2] rfl
    exact h.trans (by decide)
  · have h := (c7_normalize (PyVal.obj "http://img")).2 rfl
    exact h.trans (by decide)

/-- Claim C8: invoking any transformation with empty input text shows
only the missing-text dialog, makes no network call, and leaves the
clipboard unchanged. -/
theorem c8_missing_input (detect : String → DetectResult) (api : Except String String)
    (key : Option String) (clip : String) (op : Operation) :
    process_option detect api key clip op ""
      = { clipboard := clip
          dialogs := [("No Text Selected", "Please select some text before choosing an option.")]
          resultShown := none
          networkCalls := 0 } := by
  rfl

/-- Claim C9: when the config file is absent or holds an empty key, the
load prompts the user; a non-empty confirmed key is stored in memory and
persisted, reading the saved record back gives the same key, and a
subsequent load returns that key without prompting. -/
theorem c9_key_persistence (file : Option Config) (k : String) (d : String × Bool)
    (hstored : truthyKey (read_stored file) = false) (hk : k ≠ "") :
    (load_api_key file (k, true)).prompted = true
    ∧ (load_api_key file (k, true)).api_key = some k
    ∧ (load_api_key file (k, true)).file = some (save_api_key k)
    ∧ read_stored (some (save_api_key k)) = some k
    ∧ load_api_key (some (save_api_key k)) d
        = { api_key := some k, file := some (save_api_key k), prompted := false } := by
  refine ⟨?_, ?_, ?_, rfl, ?_⟩
  · simp [load_api_key, hstored, hk]
  · simp [load_api_key, hstored, hk]
  · simp [load_api_key, hstored, hk, save_api_key]
  · simp [load_api_key, read_stored, save_api_key, truthyKey, hk]

/-- Claim C9, witness: starting with no config file and entering a
non-empty key persists it, and loading the saved record returns it
without prompting. -/
theorem c9_witness :
    (load_api_key none ("sk-test", true)).prompted = true
    ∧ (load_api_key none ("sk-test", true)).api_key = some "sk-test"
    ∧ (load_api_key (some (save_api_key "sk-test")) ("", false)).api_key = some "sk-test" := by
  have h := c9_key_persistence none "sk-test" ("", false) (by decide) (by decide)
  exact ⟨h.1, h.2.1, by rw [h.2.2.2.2]⟩

/-- Claim C10: a generation error changes neither the stored last prompt
nor the displayed output URL nor the prompt field, while a finished
generation always sets the last prompt to the current prompt field text,
even when the returned URL list is empty, in which case the output URL is
also unchanged. -/
theorem c10_dialog_frame (st : DialogState) (msg : String) (out : List String) :
    (on_generation_error st msg).last_prompt = st.last_prompt
    ∧ (on_generation_error st msg).output_url = st.output_url
    ∧ (on_generation_error st msg).prompt_input = st.prompt_input
    ∧ (on_generation_finished st out).last_prompt = st.prompt_input
    ∧ (on_generation_finished st []).output_url = st.output_url := by
  refine ⟨rfl, rfl, rfl, ?_, rfl⟩
  cases out <;> rfl
